import Mathlib

/-
Verification of the lta-ev-poller pipeline (src/poll_once.py): a shallow
embedding of the status decoders, the flattener, the CSV append sink and the
link resolver, with theorems checking the specified properties.

Modelling conventions:
  * JSON scalar values are modelled by `Scalar` (string, integer, boolean).
    Python's None and an absent key are both read back as `None` by
    `dict.get`, so an optional scalar field is `Option Scalar` with `none`
    standing for both null and absent.
  * Nested arrays (`evLocationsData`, `chargingPoints`, `plugTypes`,
    `evIds`) are `Option (List _)`; `none` models the field being absent or
    null.  The source reads them with `d.get(key, []) or []`, which yields
    `[]` in exactly those cases; this is embedded as `Option.getD _ []`.
  * Python's `str(x)` on a scalar is `pyStr`, `str.strip()` is `pyStrip`
    (whitespace modelled as the common ASCII whitespace characters).
  * Pandas cells are modelled by `Cell`: an `obj` cell holds a raw scalar
    (`none` = missing), a `strNA` cell a string-dtype value (`none` = NA),
    a `numNA` cell a numeric value (`none` = NaN).  The numeric domain is
    modelled by `Int`: `pd.to_numeric(_, errors="coerce")` is embedded as an
    integer-literal parse, which is enough for every claim at stake (the
    claims concern parseable versus unparseable values, not decimals).
  * The filesystem seen by the CSV sink is an association list from paths to
    CSV line lists; `df.to_csv(..., mode="a", header=h, index=False)` is
    embedded as appending an optional header line plus one data line per row
    (byte-level CSV quoting and the utf-8-sig encoding are library behaviour
    outside the claims).
-/

namespace EvPoll

/-- A JSON scalar as Python hands it to the script: a string, an integer or a
boolean. -/
inductive Scalar where
  | s : String → Scalar
  | i : Int → Scalar
  | b : Bool → Scalar
deriving DecidableEq, Repr

/-- Python's `str()` on a scalar. -/
def pyStr : Scalar → String
  | .s v => v
  | .i n => toString n
  | .b true => "True"
  | .b false => "False"

/-- Whitespace as stripped by Python's `str.strip()` (ASCII subset). -/
def isSpaceChar (c : Char) : Bool :=
  c = ' ' || c = '\t' || c = '\n' || c = '\x0d' || c = '\x0b' || c = '\x0c'

/-- Python's `str.strip()`: drop leading and trailing whitespace. -/
def pyStrip (s : String) : String :=
  String.mk (((s.data.dropWhile isSpaceChar).reverse.dropWhile isSpaceChar).reverse)

/-- The normalisation step shared by the three decoders:
`s = "" if code is None else str(code).strip()`. -/
def normCode (code : Option Scalar) : String :=
  match code with
  | none => ""
  | some c => pyStrip (pyStr c)

/-- `decode_location_status` of src/poll_once.py: normalise, then look the
code up in the location table, defaulting to "Unknown/Other". -/
def decode_location_status (code : Option Scalar) : String :=
  let s := normCode code
  if s = "0" then "Occupied (all points occupied)"
  else if s = "1" then "Available (at least one point available)"
  else if s = "100" then "Not Available (all points not available)"
  else if s = "" then "Unknown/Not Provided"
  else "Unknown/Other"

/-- `decode_point_status` of src/poll_once.py. -/
def decode_point_status (code : Option Scalar) : String :=
  let s := normCode code
  if s = "0" then "Occupied"
  else if s = "1" then "Available"
  else if s = "100" then "Not Available"
  else if s = "" then "Unknown/Not Provided"
  else "Unknown/Other"

/-- `decode_evid_status` of src/poll_once.py: note the empty code maps to
"Not Available" here, unlike the other two tables. -/
def decode_evid_status (code : Option Scalar) : String :=
  let s := normCode code
  if s = "0" then "Occupied"
  else if s = "1" then "Available"
  else if s = "" then "Not Available"
  else "Unknown/Other"

/-- A connector entry (one element of `evIds`), the leaf of the payload. -/
structure ConnectorEntry where
  id : Option Scalar
  evCpId : Option Scalar
  status : Option Scalar
deriving DecidableEq, Repr

/-- A plug type (one element of `plugTypes`). -/
structure PlugType where
  plugType : Option Scalar
  powerRating : Option Scalar
  chargingSpeed : Option Scalar
  current : Option Scalar
  price : Option Scalar
  priceType : Option Scalar
  evIds : Option (List ConnectorEntry)
deriving DecidableEq, Repr

/-- A charging point (one element of `chargingPoints`). -/
structure ChargingPoint where
  status : Option Scalar
  operatingHours : Option Scalar
  operator : Option Scalar
  position : Option Scalar
  name : Option Scalar
  id : Option Scalar
  plugTypes : Option (List PlugType)
deriving DecidableEq, Repr

/-- A location (one element of `evLocationsData`).  The source reads the
field `longtitude` spelled as the API spells it. -/
structure Location where
  address : Option Scalar
  name : Option Scalar
  longtitude : Option Scalar
  latitude : Option Scalar
  postalCode : Option Scalar
  locationId : Option Scalar
  status : Option Scalar
  chargingPoints : Option (List ChargingPoint)
deriving DecidableEq, Repr

/-- The downloaded batch document. -/
structure BatchPayload where
  LastUpdatedTime : Option Scalar
  evLocationsData : Option (List Location)
deriving DecidableEq, Repr

/-- A decimal digit, by code point. -/
def isDigitChar (c : Char) : Bool :=
  48 ≤ c.toNat && c.toNat ≤ 57

/-- Parse a non-empty all-digit character list as a natural number. -/
def parseNatChars (cs : List Char) : Option Nat :=
  if cs = [] then none
  else if cs.all isDigitChar then
    some (cs.foldl (fun acc c => 10 * acc + (c.toNat - 48)) 0)
  else none

/-- The numeric parse behind `pd.to_numeric(_, errors="coerce")` on a string:
strip, then read an optionally signed integer literal; anything else is
unparseable (the numeric domain is modelled by integers). -/
def parseNumStr (sv : String) : Option Int :=
  match (pyStrip sv).data with
  | '-' :: rest => (parseNatChars rest).map (fun n => -(n : Int))
  | '+' :: rest => (parseNatChars rest).map (fun n => (n : Int))
  | cs => (parseNatChars cs).map (fun n => (n : Int))

/-- `pd.to_numeric(_, errors="coerce")` on one raw scalar. -/
def scalarToNumeric : Scalar → Option Int
  | .i n => some n
  | .b true => some 1
  | .b false => some 0
  | .s sv => parseNumStr sv

/-- One cell of the flattened table: a raw object cell, a string-dtype cell
(`none` = pandas NA) or a numeric cell (`none` = NaN). -/
inductive Cell where
  | obj : Option Scalar → Cell
  | strNA : Option String → Cell
  | numNA : Option Int → Cell
deriving DecidableEq, Repr

/-- `Series.astype("string")` on one cell: every present value becomes its
string form, a missing value becomes NA. -/
def Cell.astype_string : Cell → Cell
  | .obj v => .strNA (v.map pyStr)
  | .strNA v => .strNA v
  | .numNA v => .strNA (v.map toString)

/-- `pd.to_numeric(_, errors="coerce")` on one cell: unparseable or missing
values become NaN instead of raising. -/
def Cell.to_numeric : Cell → Cell
  | .obj v => .numNA (v.bind scalarToNumeric)
  | .strNA v => .numNA (v.bind parseNumStr)
  | .numNA v => .numNA v

/-- One flattened row, carrying the full denormalised ancestry; the fields
appear in the order of the row dict literal in `flatten_evc_batch`. -/
structure FlatRow where
  fetchedAtUTC : Cell
  LastUpdatedTime : Cell
  location_address : Cell
  location_name : Cell
  location_longtitude : Cell
  location_latitude : Cell
  location_postalCode : Cell
  location_locationId : Cell
  location_status : Cell
  location_status_desc : Cell
  cp_status : Cell
  cp_status_desc : Cell
  cp_operatingHours : Cell
  cp_operator : Cell
  cp_position : Cell
  cp_name : Cell
  cp_id : Cell
  plug_plugType : Cell
  plug_powerRating : Cell
  plug_chargingSpeed : Cell
  plug_current : Cell
  plug_price : Cell
  plug_priceType : Cell
  ev_id : Cell
  evCpId : Cell
  ev_status : Cell
  ev_status_desc : Cell
deriving DecidableEq, Repr

/-- The row dict built by `rows.append({...})` in `flatten_evc_batch`. -/
def mkRow (fetched_at_utc : String) (last_updated : Option Scalar)
    (loc : Location) (cp : ChargingPoint) (plug : PlugType)
    (ev : ConnectorEntry) : FlatRow where
  fetchedAtUTC := .obj (some (.s fetched_at_utc))
  LastUpdatedTime := .obj last_updated
  location_address := .obj loc.address
  location_name := .obj loc.name
  location_longtitude := .obj loc.longtitude
  location_latitude := .obj loc.latitude
  location_postalCode := .obj loc.postalCode
  location_locationId := .obj loc.locationId
  location_status := .obj loc.status
  location_status_desc := .obj (some (.s (decode_location_status loc.status)))
  cp_status := .obj cp.status
  cp_status_desc := .obj (some (.s (decode_point_status cp.status)))
  cp_operatingHours := .obj cp.operatingHours
  cp_operator := .obj cp.operator
  cp_position := .obj cp.position
  cp_name := .obj cp.name
  cp_id := .obj cp.id
  plug_plugType := .obj plug.plugType
  plug_powerRating := .obj plug.powerRating
  plug_chargingSpeed := .obj plug.chargingSpeed
  plug_current := .obj plug.current
  plug_price := .obj plug.price
  plug_priceType := .obj plug.priceType
  ev_id := .obj ev.id
  evCpId := .obj ev.evCpId
  ev_status := .obj ev.status
  ev_status_desc := .obj (some (.s (decode_evid_status ev.status)))

/-- The column names of the flattened table, in the order of the row dict. -/
def flatColumns : List String :=
  ["fetchedAtUTC", "LastUpdatedTime",
   "location_address", "location_name", "location_longtitude",
   "location_latitude", "location_postalCode", "location_locationId",
   "location_status", "location_status_desc",
   "cp_status", "cp_status_desc", "cp_operatingHours", "cp_operator",
   "cp_position", "cp_name", "cp_id",
   "plug_plugType", "plug_powerRating", "plug_chargingSpeed", "plug_current",
   "plug_price", "plug_priceType",
   "ev_id", "evCpId", "ev_status", "ev_status_desc"]

/-- A pandas data frame over flattened rows: its column names and its rows. -/
structure DataFrame where
  columns : List String
  rows : List FlatRow
deriving DecidableEq, Repr

/-- `pd.DataFrame(rows)`: an empty row list gives an empty frame with no
columns, otherwise the columns are the row dict's keys. -/
def pdDataFrame (rows : List FlatRow) : DataFrame :=
  { columns := if rows.isEmpty then [] else flatColumns, rows := rows }

/-- The four nested `for` loops of `flatten_evc_batch`, building `rows` by
appending one dict per connector entry; each absent or null array is read as
`[]` (`d.get(key, []) or []`). -/
def buildRows (payload : BatchPayload) (fetched_at_utc : String) :
    List FlatRow :=
  let last_updated := payload.LastUpdatedTime
  let locations := payload.evLocationsData.getD []
  locations.foldl (fun rows loc =>
    let charging_points := loc.chargingPoints.getD []
    charging_points.foldl (fun rows cp =>
      let plug_types := cp.plugTypes.getD []
      plug_types.foldl (fun rows plug =>
        let ev_ids := plug.evIds.getD []
        ev_ids.foldl (fun rows ev =>
          rows ++ [mkRow fetched_at_utc last_updated loc cp plug ev])
          rows) rows) rows) []

/-- `flatten_evc_batch` of src/poll_once.py: build the rows, wrap them in a
frame, then force the postal code column to string dtype and coerce the two
coordinate columns to numeric — each step guarded by column presence. -/
def flatten_evc_batch (payload : BatchPayload) (fetched_at_utc : String) :
    DataFrame :=
  let df := pdDataFrame (buildRows payload fetched_at_utc)
  let df := if "location_postalCode" ∈ df.columns then
      { columns := df.columns,
        rows := df.rows.map (fun r =>
          { r with location_postalCode := r.location_postalCode.astype_string }) }
    else df
  let df := if "location_longtitude" ∈ df.columns then
      { columns := df.columns,
        rows := df.rows.map (fun r =>
          { r with location_longtitude := r.location_longtitude.to_numeric }) }
    else df
  let df := if "location_latitude" ∈ df.columns then
      { columns := df.columns,
        rows := df.rows.map (fun r =>
          { r with location_latitude := r.location_latitude.to_numeric }) }
    else df
  df

/-- Spec-side decomposition: the rows a single plug type contributes. -/
def rowsOfPlug (t : String) (lu : Option Scalar) (loc : Location)
    (cp : ChargingPoint) (plug : PlugType) : List FlatRow :=
  (plug.evIds.getD []).map (fun ev => mkRow t lu loc cp plug ev)

/-- Spec-side decomposition: the rows a single charging point contributes. -/
def rowsOfPoint (t : String) (lu : Option Scalar) (loc : Location)
    (cp : ChargingPoint) : List FlatRow :=
  (cp.plugTypes.getD []).flatMap (rowsOfPlug t lu loc cp)

/-- Spec-side decomposition: the rows a single location contributes. -/
def rowsOfLocation (t : String) (lu : Option Scalar) (loc : Location) :
    List FlatRow :=
  (loc.chargingPoints.getD []).flatMap (rowsOfPoint t lu loc)

/-- Spec-side traversal: all raw rows, in payload order. -/
def specRows (payload : BatchPayload) (t : String) : List FlatRow :=
  (payload.evLocationsData.getD []).flatMap
    (rowsOfLocation t payload.LastUpdatedTime)

/-- Row-wise view of the frame post-processing: force the postal code cell to
string dtype and coerce the two coordinate cells to numeric. -/
def procRow (r : FlatRow) : FlatRow :=
  { r with
    location_postalCode := r.location_postalCode.astype_string
    location_longtitude := r.location_longtitude.to_numeric
    location_latitude := r.location_latitude.to_numeric }

/-- Total number of leaf connector entries of a payload. -/
def totalConnectors (payload : BatchPayload) : Nat :=
  ((payload.evLocationsData.getD []).map (fun loc =>
    ((loc.chargingPoints.getD []).map (fun cp =>
      ((cp.plugTypes.getD []).map (fun plug =>
        (plug.evIds.getD []).length)).sum)).sum)).sum

lemma foldl_append_flat {α β : Type} (f : α → List β) (l : List α)
    (init : List β) :
    l.foldl (fun acc x => acc ++ f x) init = init ++ l.flatMap f := by
  induction l generalizing init with
  | nil => simp
  | cons a tl ih => simp [ih]

lemma evFold (t : String) (lu : Option Scalar) (loc : Location)
    (cp : ChargingPoint) (plug : PlugType) (l : List ConnectorEntry)
    (init : List FlatRow) :
    l.foldl (fun rows ev => rows ++ [mkRow t lu loc cp plug ev]) init
      = init ++ l.map (fun ev => mkRow t lu loc cp plug ev) := by
  induction l generalizing init with
  | nil => simp
  | cons a tl ih => simp [ih]

lemma plugFold (t : String) (lu : Option Scalar) (loc : Location)
    (cp : ChargingPoint) (l : List PlugType) (init : List FlatRow) :
    l.foldl (fun rows plug =>
        let ev_ids := plug.evIds.getD []
        ev_ids.foldl (fun rows ev =>
          rows ++ [mkRow t lu loc cp plug ev]) rows) init
      = init ++ l.flatMap (rowsOfPlug t lu loc cp) := by
  simp only [evFold]
  exact foldl_append_flat _ l init

lemma cpFold (t : String) (lu : Option Scalar) (loc : Location)
    (l : List ChargingPoint) (init : List FlatRow) :
    l.foldl (fun rows cp =>
        let plug_types := cp.plugTypes.getD []
        plug_types.foldl (fun rows plug =>
          let ev_ids := plug.evIds.getD []
          ev_ids.foldl (fun rows ev =>
            rows ++ [mkRow t lu loc cp plug ev]) rows) rows) init
      = init ++ l.flatMap (rowsOfPoint t lu loc) := by
  simp only [plugFold]
  exact foldl_append_flat _ l init

lemma locFold (t : String) (lu : Option Scalar) (l : List Location)
    (init : List FlatRow) :
    l.foldl (fun rows loc =>
        let charging_points := loc.chargingPoints.getD []
        charging_points.foldl (fun rows cp =>
          let plug_types := cp.plugTypes.getD []
          plug_types.foldl (fun rows plug =>
            let ev_ids := plug.evIds.getD []
            ev_ids.foldl (fun rows ev =>
              rows ++ [mkRow t lu loc cp plug ev]) rows) rows) rows) init
      = init ++ l.flatMap (rowsOfLocation t lu) := by
  simp only [cpFold]
  exact foldl_append_flat _ l init

/-- The accumulator loops of the source build exactly the traversal-order row
list. -/
lemma buildRows_eq_spec (payload : BatchPayload) (t : String) :
    buildRows payload t = specRows payload t := by
  unfold buildRows specRows
  simpa using locFold t payload.LastUpdatedTime (payload.evLocationsData.getD []) []

lemma specRows_length (payload : BatchPayload) (t : String) :
    (specRows payload t).length = totalConnectors payload := by
  unfold specRows totalConnectors rowsOfLocation rowsOfPoint rowsOfPlug
  simp [List.length_flatMap, Function.comp_def]

/-- Updating the three post-processed fields in sequence is `procRow`. -/
lemma proc_steps (r : FlatRow) :
    ({ { { r with location_postalCode := r.location_postalCode.astype_string }
          with location_longtitude :=
            ({ r with location_postalCode :=
                r.location_postalCode.astype_string }).location_longtitude.to_numeric }
        with location_latitude :=
          ({ { r with location_postalCode := r.location_postalCode.astype_string }
              with location_longtitude :=
                ({ r with location_postalCode :=
                    r.location_postalCode.astype_string }).location_longtitude.to_numeric }).location_latitude.to_numeric } : FlatRow)
      = procRow r := rfl

/-- The flattened frame's rows are the traversal-order rows, post-processed
row-wise. -/
lemma flatten_rows_spec (payload : BatchPayload) (t : String) :
    (flatten_evc_batch payload t).rows = (specRows payload t).map procRow := by
  unfold flatten_evc_batch pdDataFrame
  rw [buildRows_eq_spec]
  rcases h : specRows payload t with _ | ⟨r, rs⟩
  · simp
  · simp only [List.isEmpty_cons, if_neg, Bool.false_eq_true, not_false_iff]
    have hmem : "location_postalCode" ∈ flatColumns := by decide
    have hmem2 : "location_longtitude" ∈ flatColumns := by decide
    have hmem3 : "location_latitude" ∈ flatColumns := by decide
    simp only [hmem, hmem2, hmem3, if_true, List.map_map]
    exact List.map_congr_left (fun a _ => proc_steps a)

/-- The flattened frame's columns: empty on a zero-row batch, otherwise the
fixed column list. -/
lemma flatten_columns_spec (payload : BatchPayload) (t : String) :
    (flatten_evc_batch payload t).columns
      = if (specRows payload t).isEmpty then [] else flatColumns := by
  unfold flatten_evc_batch pdDataFrame
  rw [buildRows_eq_spec]
  rcases h : specRows payload t with _ | ⟨r, rs⟩
  · simp
  · simp only [List.isEmpty_cons, if_neg, Bool.false_eq_true, not_false_iff]
    have hmem : "location_postalCode" ∈ flatColumns := by decide
    have hmem2 : "location_longtitude" ∈ flatColumns := by decide
    have hmem3 : "location_latitude" ∈ flatColumns := by decide
    simp [hmem, hmem2, hmem3]

/-- Replace an absent or null `evIds` array by the empty array. -/
def PlugType.fillArrays (plug : PlugType) : PlugType :=
  { plug with evIds := some (plug.evIds.getD []) }

/-- Replace absent or null arrays below a charging point by empty arrays. -/
def ChargingPoint.fillArrays (cp : ChargingPoint) : ChargingPoint :=
  { cp with plugTypes := some ((cp.plugTypes.getD []).map PlugType.fillArrays) }

/-- Replace absent or null arrays below a location by empty arrays. -/
def Location.fillArrays (loc : Location) : Location :=
  { loc with chargingPoints := some ((loc.chargingPoints.getD []).map ChargingPoint.fillArrays) }

/-- Replace every absent or null array of a payload by an empty array. -/
def BatchPayload.fillArrays (payload : BatchPayload) : BatchPayload :=
  { payload with evLocationsData := some ((payload.evLocationsData.getD []).map Location.fillArrays) }

lemma rowsOfPlug_fill (t : String) (lu : Option Scalar) (loc : Location)
    (cp : ChargingPoint) (plug : PlugType) :
    rowsOfPlug t lu loc.fillArrays cp.fillArrays plug.fillArrays
      = rowsOfPlug t lu loc cp plug := rfl

lemma rowsOfPoint_fill (t : String) (lu : Option Scalar) (loc : Location)
    (cp : ChargingPoint) :
    rowsOfPoint t lu loc.fillArrays cp.fillArrays
      = rowsOfPoint t lu loc cp := by
  show ((cp.plugTypes.getD []).map PlugType.fillArrays).flatMap
      (rowsOfPlug t lu loc.fillArrays cp.fillArrays)
    = (cp.plugTypes.getD []).flatMap (rowsOfPlug t lu loc cp)
  rw [List.flatMap_map]
  exact List.flatMap_congr (fun plug _ => rowsOfPlug_fill t lu loc cp plug)

lemma rowsOfLocation_fill (t : String) (lu : Option Scalar) (loc : Location) :
    rowsOfLocation t lu loc.fillArrays = rowsOfLocation t lu loc := by
  show ((loc.chargingPoints.getD []).map ChargingPoint.fillArrays).flatMap
      (rowsOfPoint t lu loc.fillArrays)
    = (loc.chargingPoints.getD []).flatMap (rowsOfPoint t lu loc)
  rw [List.flatMap_map]
  exact List.flatMap_congr (fun cp _ => rowsOfPoint_fill t lu loc cp)

lemma specRows_fill (payload : BatchPayload) (t : String) :
    specRows payload.fillArrays t = specRows payload t := by
  show ((payload.evLocationsData.getD []).map Location.fillArrays).flatMap
      (rowsOfLocation t payload.LastUpdatedTime)
    = (payload.evLocationsData.getD []).flatMap
      (rowsOfLocation t payload.LastUpdatedTime)
  rw [List.flatMap_map]
  exact List.flatMap_congr
    (fun loc _ => rowsOfLocation_fill t payload.LastUpdatedTime loc)

lemma DataFrame.eq_of (a b : DataFrame) (h1 : a.columns = b.columns)
    (h2 : a.rows = b.rows) : a = b := by
  cases a; cases b; simp_all

/-- C1: flattening a payload produces exactly one row per leaf connector
entry — the row count is the sum over locations, charging points and plug
types of their connector-entry counts — and the rows come in traversal
order: locations in input order, then charging points, then plug types, then
connector entries, with no sorting. -/
theorem flatten_one_row_per_connector_in_order (payload : BatchPayload)
    (t : String) :
    (flatten_evc_batch payload t).rows
      = (payload.evLocationsData.getD []).flatMap (fun loc =>
          (loc.chargingPoints.getD []).flatMap (fun cp =>
            (cp.plugTypes.getD []).flatMap (fun plug =>
              (plug.evIds.getD []).map (fun ev =>
                procRow (mkRow t payload.LastUpdatedTime loc cp plug ev)))))
    ∧ (flatten_evc_batch payload t).rows.length = totalConnectors payload := by
  constructor
  · rw [flatten_rows_spec]
    unfold specRows rowsOfLocation rowsOfPoint rowsOfPlug
    simp [List.map_flatMap, List.map_map, Function.comp_def]
  · rw [flatten_rows_spec, List.length_map, specRows_length]

/-- C2: each decoder first normalises its input (None becomes the empty
string, anything else is stringified and stripped) and then maps "0", "1"
and — for the location and point tables — "100" to their documented
descriptions, any other non-empty code to "Unknown/Other", and the empty
code to "Unknown/Not Provided" in the location and point tables but to
"Not Available" in the connector table. -/
theorem decoders_follow_documented_tables :
    (∀ c c' : Option Scalar, normCode c = normCode c' →
      decode_location_status c = decode_location_status c'
      ∧ decode_point_status c = decode_point_status c'
      ∧ decode_evid_status c = decode_evid_status c')
    ∧ decode_location_status (some (Scalar.s "0"))
        = "Occupied (all points occupied)"
    ∧ decode_location_status (some (Scalar.s "1"))
        = "Available (at least one point available)"
    ∧ decode_location_status (some (Scalar.s "100"))
        = "Not Available (all points not available)"
    ∧ decode_point_status (some (Scalar.s "0")) = "Occupied"
    ∧ decode_point_status (some (Scalar.s "1")) = "Available"
    ∧ decode_point_status (some (Scalar.s "100")) = "Not Available"
    ∧ decode_evid_status (some (Scalar.s "0")) = "Occupied"
    ∧ decode_evid_status (some (Scalar.s "1")) = "Available"
    ∧ decode_location_status (some (Scalar.i 1))
        = "Available (at least one point available)"
    ∧ decode_point_status (some (Scalar.s " 1 ")) = "Available"
    ∧ (∀ c : Option Scalar,
        normCode c ∉ (["0", "1", "100", ""] : List String) →
          decode_location_status c = "Unknown/Other"
          ∧ decode_point_status c = "Unknown/Other")
    ∧ (∀ c : Option Scalar,
        normCode c ∉ (["0", "1", ""] : List String) →
          decode_evid_status c = "Unknown/Other")
    ∧ decode_evid_status (some (Scalar.s "100")) = "Unknown/Other"
    ∧ (∀ c : Option Scalar, normCode c = "" →
        decode_location_status c = "Unknown/Not Provided"
        ∧ decode_point_status c = "Unknown/Not Provided"
        ∧ decode_evid_status c = "Not Available")
    ∧ decode_location_status none = "Unknown/Not Provided"
    ∧ decode_point_status none = "Unknown/Not Provided"
    ∧ decode_evid_status none = "Not Available" := by
  refine ⟨?_, by decide, by decide, by decide, by decide, by decide, by decide,
    by decide, by decide, by decide, by decide, ?_, ?_, by decide, ?_,
    by decide, by decide, by decide⟩
  · intro c c' h
    unfold decode_location_status decode_point_status decode_evid_status
    rw [h]
    exact ⟨rfl, rfl, rfl⟩
  · intro c h
    simp only [List.mem_cons, List.not_mem_nil, or_false, not_or] at h
    obtain ⟨h0, h1, h100, he⟩ := h
    constructor
    · unfold decode_location_status
      simp [h0, h1, h100, he]
    · unfold decode_point_status
      simp [h0, h1, h100, he]
  · intro c h
    simp only [List.mem_cons, List.not_mem_nil, or_false, not_or] at h
    obtain ⟨h0, h1, he⟩ := h
    unfold decode_evid_status
    simp [h0, h1, he]
  · intro c h
    refine ⟨?_, ?_, ?_⟩
    · unfold decode_location_status
      simp [h]
    · unfold decode_point_status
      simp [h]
    · unfold decode_evid_status
      simp [h]

/-- C3: an absent or null intermediate array at any level (the locations
array, `chargingPoints`, `plugTypes` or `evIds`) is treated as an empty
sequence: flattening is unchanged when every such array is replaced by an
empty one, a branch whose array is absent contributes zero rows, and an
absent locations array yields an empty frame.  The embedding is total, so no
error can be raised for any of these inputs. -/
theorem missing_arrays_treated_as_empty (payload : BatchPayload)
    (t : String) :
    flatten_evc_batch payload t = flatten_evc_batch payload.fillArrays t
    ∧ (∀ (lu : Option Scalar) (loc : Location), loc.chargingPoints = none →
        rowsOfLocation t lu loc = [])
    ∧ (∀ (lu : Option Scalar) (loc : Location) (cp : ChargingPoint),
        cp.plugTypes = none → rowsOfPoint t lu loc cp = [])
    ∧ (∀ (lu : Option Scalar) (loc : Location) (cp : ChargingPoint)
        (plug : PlugType), plug.evIds = none →
          rowsOfPlug t lu loc cp plug = [])
    ∧ (payload.evLocationsData = none →
        flatten_evc_batch payload t = { columns := [], rows := [] }) := by
  refine ⟨?_, ?_, ?_, ?_, ?_⟩
  · refine DataFrame.eq_of _ _ ?_ ?_
    · rw [flatten_columns_spec, flatten_columns_spec, specRows_fill]
    · rw [flatten_rows_spec, flatten_rows_spec, specRows_fill]
  · intro lu loc h
    unfold rowsOfLocation
    rw [h]
    rfl
  · intro lu loc cp h
    unfold rowsOfPoint
    rw [h]
    rfl
  · intro lu loc cp plug h
    unfold rowsOfPlug
    rw [h]
    rfl
  · intro h
    have hs : specRows payload t = [] := by
      unfold specRows
      rw [h]
      rfl
    refine DataFrame.eq_of _ _ ?_ ?_
    · rw [flatten_columns_spec, hs]
      rfl
    · rw [flatten_rows_spec, hs]
      rfl

/-- C7: a longitude or latitude value that cannot be parsed as a number
(such as the string "N/A") ends up as the missing-value marker (NaN) in the
post-processed row, the row itself is still produced (the row count depends
only on the connector-entry structure), and the flattener is a total
function — it never aborts a batch over field contents. -/
theorem unparseable_coordinates_become_missing (payload : BatchPayload)
    (t : String) :
    (flatten_evc_batch payload t).rows.length = totalConnectors payload
    ∧ (∀ (lu : Option Scalar) (loc : Location) (cp : ChargingPoint)
        (plug : PlugType) (ev : ConnectorEntry),
        (procRow (mkRow t lu loc cp plug ev)).location_longtitude
            = Cell.numNA (loc.longtitude.bind scalarToNumeric)
        ∧ (procRow (mkRow t lu loc cp plug ev)).location_latitude
            = Cell.numNA (loc.latitude.bind scalarToNumeric))
    ∧ (flatten_evc_batch payload t).rows = (specRows payload t).map procRow
    ∧ scalarToNumeric (Scalar.s "N/A") = none := by
  refine ⟨?_, ?_, flatten_rows_spec payload t, by decide⟩
  · rw [flatten_rows_spec, List.length_map, specRows_length]
  · intro lu loc cp plug ev
    exact ⟨rfl, rfl⟩

/-- C8: postal codes are carried as text and never parsed as numbers: every
flattened row's postal-code cell is the string-dtype image of its source
location's `postalCode`, so a location with postal code "01234" yields rows
whose postal-code field is the exact text "01234", leading zero preserved,
after row building and column post-processing. -/
theorem postal_code_kept_as_text (payload : BatchPayload) (t : String)
    (r : FlatRow) (h : r ∈ (flatten_evc_batch payload t).rows) :
    ∃ loc ∈ payload.evLocationsData.getD [],
      r.location_postalCode = Cell.strNA (loc.postalCode.map pyStr)
      ∧ (loc.postalCode = some (Scalar.s "01234") →
          r.location_postalCode = Cell.strNA (some "01234")) := by
  rw [flatten_rows_spec] at h
  obtain ⟨r0, hr0, rfl⟩ := List.mem_map.mp h
  unfold specRows at hr0
  obtain ⟨loc, hloc, hr1⟩ := List.mem_flatMap.mp hr0
  unfold rowsOfLocation at hr1
  obtain ⟨cp, _, hr2⟩ := List.mem_flatMap.mp hr1
  unfold rowsOfPoint at hr2
  obtain ⟨plug, _, hr3⟩ := List.mem_flatMap.mp hr2
  unfold rowsOfPlug at hr3
  obtain ⟨ev, _, rfl⟩ := List.mem_map.mp hr3
  refine ⟨loc, hloc, rfl, ?_⟩
  intro hp
  show (Cell.obj loc.postalCode).astype_string = Cell.strNA (some "01234")
  rw [hp]
  rfl

/-- C10: a payload with zero leaf connector entries flattens to an empty
frame with no columns; the postal-code and coordinate post-processing steps
are skipped because their column-presence guards fail, and the (total)
flattener returns normally. -/
theorem zero_row_batch_gives_empty_frame (payload : BatchPayload)
    (t : String) (h : totalConnectors payload = 0) :
    flatten_evc_batch payload t = { columns := [], rows := [] }
    ∧ (pdDataFrame (buildRows payload t)).columns = []
    ∧ "location_postalCode" ∉ (pdDataFrame (buildRows payload t)).columns
    ∧ "location_longtitude" ∉ (pdDataFrame (buildRows payload t)).columns
    ∧ "location_latitude" ∉ (pdDataFrame (buildRows payload t)).columns := by
  have hs : specRows payload t = [] := by
    have := specRows_length payload t
    rw [h] at this
    exact List.length_eq_zero.mp this
  have hb : buildRows payload t = [] := by
    rw [buildRows_eq_spec, hs]
  have hcols : (pdDataFrame (buildRows payload t)).columns = [] := by
    rw [hb]
    rfl
  refine ⟨?_, hcols, ?_, ?_, ?_⟩
  · refine DataFrame.eq_of _ _ ?_ ?_
    · rw [flatten_columns_spec, hs]
      rfl
    · rw [flatten_rows_spec, hs]
      rfl
  · rw [hcols]
    exact List.not_mem_nil _
  · rw [hcols]
    exact List.not_mem_nil _
  · rw [hcols]
    exact List.not_mem_nil _

/-- One element of the `value` array of the link-resolver response: a JSON
object, as an association list of scalar fields. -/
abbrev LinkEntry := List (String × Scalar)

/-- The parsed link-resolver response, scoped to its `value` field; `none`
models the field being absent from the JSON object. -/
structure LinkResponse where
  value : Option (List LinkEntry)
deriving DecidableEq, Repr

/-- Python repr of a scalar, as an f-string interpolates it inside a dict. -/
def reprScalar : Scalar → String
  | .s v => "\x27" ++ v ++ "\x27"
  | .i n => toString n
  | .b true => "True"
  | .b false => "False"

/-- Python repr of one `value` element. -/
def reprEntry (e : LinkEntry) : String :=
  "\x7b" ++ String.intercalate ", "
    (e.map (fun kv => "\x27" ++ kv.1 ++ "\x27: " ++ reprScalar kv.2)) ++ "\x7d"

/-- Python repr of the parsed response, as `f"...{payload}"` renders it. -/
def reprResponse (r : LinkResponse) : String :=
  match r.value with
  | none => "\x7b\x7d"
  | some entries =>
      "\x7b\x27value\x27: ["
        ++ String.intercalate ", " (entries.map reprEntry) ++ "]\x7d"

/-- The message of the RuntimeError raised by `get_ev_batch_download_link`:
it embeds the full (parsed) response. -/
def linkErrMsg (r : LinkResponse) : String :=
  "No \x27Link\x27 found in response. Full response:\n" ++ reprResponse r

/-- `get_ev_batch_download_link` of src/poll_once.py, from the point the
response body has been parsed: read `value` with default `[]`, fail if it is
empty or its first element has no `Link` key, else return that `Link`
value. -/
def get_ev_batch_download_link (r : LinkResponse) : Except String Scalar :=
  let value := r.value.getD []
  match value with
  | [] => .error (linkErrMsg r)
  | first :: _ =>
      match first.lookup "Link" with
      | none => .error (linkErrMsg r)
      | some link => .ok link

/-- C6: when the `value` array is empty, or its first element lacks a `Link`
field, the resolver fails with the malformed-response error whose message
embeds the full response; otherwise it returns the `Link` field of the first
element of `value`. -/
theorem link_resolver_first_link_or_error (r : LinkResponse) :
    (r.value.getD [] = [] →
      get_ev_batch_download_link r = .error
        ("No \x27Link\x27 found in response. Full response:\n"
          ++ reprResponse r))
    ∧ (∀ (first : LinkEntry) (rest : List LinkEntry),
        r.value.getD [] = first :: rest → first.lookup "Link" = none →
          get_ev_batch_download_link r = .error
            ("No \x27Link\x27 found in response. Full response:\n"
              ++ reprResponse r))
    ∧ (∀ (first : LinkEntry) (rest : List LinkEntry) (link : Scalar),
        r.value.getD [] = first :: rest → first.lookup "Link" = some link →
          get_ev_batch_download_link r = .ok link) := by
  refine ⟨?_, ?_, ?_⟩
  · intro h
    unfold get_ev_batch_download_link
    rw [h]
    rfl
  · intro first rest h hl
    unfold get_ev_batch_download_link
    rw [h]
    simp only [hl]
    rfl
  · intro first rest link h hl
    unfold get_ev_batch_download_link
    rw [h]
    simp only [hl]

/-- C9 (implicit): a response lacking the `value` field entirely takes the
same malformed-response branch as one with an empty `value` array — the
resolver returns the error embedding the response rather than failing on the
key lookup. -/
theorem absent_value_field_like_empty_value (r : LinkResponse)
    (h : r.value = none) :
    get_ev_batch_download_link r = .error (linkErrMsg r)
    ∧ get_ev_batch_download_link { value := some [] }
        = .error (linkErrMsg { value := some [] }) := by
  constructor
  · unfold get_ev_batch_download_link
    rw [h]
    rfl
  · rfl

/-- One line of a CSV file: the header line or one data line (cell rendering
and encoding are library behaviour below this model). -/
inductive CsvLine where
  | header : List String → CsvLine
  | data : List Cell → CsvLine
deriving DecidableEq, Repr

/-- Whether a CSV line is the header line. -/
def CsvLine.isHeader : CsvLine → Bool
  | .header _ => true
  | .data _ => false

/-- The cells of a row, in column order. -/
def FlatRow.cells (r : FlatRow) : List Cell :=
  [r.fetchedAtUTC, r.LastUpdatedTime,
   r.location_address, r.location_name, r.location_longtitude,
   r.location_latitude, r.location_postalCode, r.location_locationId,
   r.location_status, r.location_status_desc,
   r.cp_status, r.cp_status_desc, r.cp_operatingHours, r.cp_operator,
   r.cp_position, r.cp_name, r.cp_id,
   r.plug_plugType, r.plug_powerRating, r.plug_chargingSpeed, r.plug_current,
   r.plug_price, r.plug_priceType,
   r.ev_id, r.evCpId, r.ev_status, r.ev_status_desc]

/-- The filesystem as the CSV sink sees it: paths mapped to CSV lines. -/
abbrev FileState := List (String × List CsvLine)

/-- Write (or overwrite) one path's content. -/
def setFile : FileState → String → List CsvLine → FileState
  | [], path, content => [(path, content)]
  | (p, c) :: rest, path, content =>
      if p = path then (path, content) :: rest
      else (p, c) :: setFile rest path content

/-- The data lines `df.to_csv` writes: one per row, in row order. -/
def dataLines (df : DataFrame) : List CsvLine :=
  df.rows.map (fun r => CsvLine.data r.cells)

/-- `df.to_csv(path, mode="a", index=False, header=h)`: open for append and
write an optional header line followed by one line per row; the existing
content is extended, never read back or rewritten. -/
def to_csv_append (fs : FileState) (path : String) (df : DataFrame)
    (header : Bool) : FileState :=
  let existing := (fs.lookup path).getD []
  setFile fs path
    (existing ++ (if header then [CsvLine.header df.columns] else [])
      ++ dataLines df)

/-- `append_to_csv` of src/poll_once.py: the header is requested only when
the file does not exist or is empty (`st_size > 0` is modelled as the line
list being non-empty; parent-directory creation is below this model). -/
def append_to_csv (fs : FileState) (csv_path : String) (df : DataFrame) :
    FileState :=
  let file_exists := (fs.lookup csv_path).isSome
  let has_content := file_exists && !((fs.lookup csv_path).getD []).isEmpty
  to_csv_append fs csv_path df (!has_content)

lemma lookup_setFile_self (fs : FileState) (path : String)
    (c : List CsvLine) : (setFile fs path c).lookup path = some c := by
  induction fs with
  | nil => simp [setFile]
  | cons hd tl ih =>
      obtain ⟨p, v⟩ := hd
      by_cases hp : p = path
      · subst hp
        simp [setFile]
      · have hb : (path == p) = false := by
          simp only [beq_eq_false_iff_ne]
          exact Ne.symm hp
        simp [setFile, hp, List.lookup, hb, ih]

lemma lookup_setFile_ne (fs : FileState) (path q : String) (c : List CsvLine)
    (h : q ≠ path) : (setFile fs path c).lookup q = fs.lookup q := by
  have hb : (q == path) = false := by
    simp only [beq_eq_false_iff_ne]
    exact h
  induction fs with
  | nil => simp [setFile, List.lookup, hb]
  | cons hd tl ih =>
      obtain ⟨p, v⟩ := hd
      by_cases hp : p = path
      · subst hp
        simp [setFile, List.lookup, hb, ih]
      · simp [setFile, hp, List.lookup, ih]

lemma countP_isHeader_dataLines (df : DataFrame) :
    (dataLines df).countP CsvLine.isHeader = 0 := by
  unfold dataLines
  rw [List.countP_map]
  simp [Function.comp_def, CsvLine.isHeader, List.countP_eq_zero]

lemma append_to_nonempty (fs : FileState) (path : String) (df : DataFrame)
    (cur : List CsvLine) (hc : fs.lookup path = some cur) (hne : cur ≠ []) :
    (append_to_csv fs path df).lookup path = some (cur ++ dataLines df) := by
  unfold append_to_csv to_csv_append
  rw [hc]
  have he : cur.isEmpty = false := by
    cases cur with
    | nil => exact absurd rfl hne
    | cons a l => rfl
  simp [he, lookup_setFile_self]

/-- C5: appending a frame of N rows to a fresh or empty path writes the
header line plus the N data lines; a second append to the now non-empty path
extends the content in place with N more data lines and no second header, so
the file ends with exactly one header line and 2N data lines. -/
theorem csv_append_writes_header_once (fs : FileState) (path : String)
    (df : DataFrame)
    (h : fs.lookup path = none ∨ fs.lookup path = some []) :
    (append_to_csv fs path df).lookup path
        = some (CsvLine.header df.columns :: dataLines df)
    ∧ (append_to_csv (append_to_csv fs path df) path df).lookup path
        = some (CsvLine.header df.columns :: (dataLines df ++ dataLines df))
    ∧ (dataLines df).length = df.rows.length
    ∧ (CsvLine.header df.columns
        :: (dataLines df ++ dataLines df)).countP CsvLine.isHeader = 1
    ∧ ((CsvLine.header df.columns
        :: (dataLines df ++ dataLines df)).countP
          (fun l => !l.isHeader)) = 2 * df.rows.length := by
  have h1 : (append_to_csv fs path df).lookup path
      = some (CsvLine.header df.columns :: dataLines df) := by
    rcases h with h | h
    · simp [append_to_csv, to_csv_append, h, lookup_setFile_self]
    · simp [append_to_csv, to_csv_append, h, lookup_setFile_self]
  refine ⟨h1, ?_, List.length_map _ _, ?_, ?_⟩
  · have h2 := append_to_nonempty (append_to_csv fs path df) path df
      (CsvLine.header df.columns :: dataLines df) h1 (by simp)
    rw [h2]
    simp
  · simp [List.countP_cons, List.countP_append, countP_isHeader_dataLines,
      CsvLine.isHeader]
  · have hd : (dataLines df).countP (fun l => !l.isHeader)
        = df.rows.length := by
      unfold dataLines
      rw [List.countP_map]
      simp [Function.comp_def, CsvLine.isHeader]
    rw [List.countP_cons, List.countP_append, hd]
    simp [CsvLine.isHeader, Nat.two_mul]

/-- Python's `str()` as the summary line prints an optional value. -/
def reprOptScalar : Option Scalar → String
  | none => "None"
  | some v => pyStr v

/-- The run pipeline of `main` from the point the payload has been fetched:
it builds the snapshot record `{"fetchedAtUTC": ..., "payload": ...}` — and
never writes it — then flattens and appends to the CSV path, returning the
new file state together with the printed summary lines. -/
def main_model (payload : BatchPayload) (fetched_at : String)
    (fs : FileState) : FileState × List String :=
  let _snapshot : String × BatchPayload := (fetched_at, payload)
  let df := flatten_evc_batch payload fetched_at
  let fs2 := append_to_csv fs "data/evc_history.csv" df
  (fs2,
   ["[OK] fetchedAtUTC=" ++ fetched_at ++ " LastUpdatedTime="
      ++ reprOptScalar payload.LastUpdatedTime,
    "Appended rows: " ++ toString df.rows.length,
    "Saved to: data/evc_history.csv"])

/-- C4 (code bug in the source): `main` constructs the snapshot record with
the fetch timestamp and the raw payload but never writes it — a run touches
only the CSV output path, so no line-delimited JSON record is appended to
any log.  Every path other than "data/evc_history.csv" is left exactly as it
was. -/
theorem main_run_writes_no_snapshot_log (payload : BatchPayload)
    (fetched_at : String) (fs : FileState) (path : String)
    (h : path ≠ "data/evc_history.csv") :
    ((main_model payload fetched_at fs).1).lookup path = fs.lookup path := by
  unfold main_model append_to_csv to_csv_append
  exact lookup_setFile_ne fs "data/evc_history.csv" path _ h

/-- A concrete connector entry for witnesses. -/
def ev0 : ConnectorEntry :=
  { id := some (.s "EV1"), evCpId := some (.s "CP1"),
    status := some (.s "1") }

/-- A concrete plug type for witnesses. -/
def plug0 : PlugType :=
  { plugType := some (.s "Type 2"), powerRating := some (.s "7.4kW"),
    chargingSpeed := some (.s "AC"), current := some (.s "32A"),
    price := some (.s "0.55"), priceType := some (.s "kWh"),
    evIds := some [ev0] }

/-- A concrete charging point for witnesses. -/
def cp0 : ChargingPoint :=
  { status := some (.s "1"), operatingHours := some (.s "24 Hours"),
    operator := some (.s "SPM"), position := some (.s "B1"),
    name := some (.s "Point 1"), id := some (.s "C1"),
    plugTypes := some [plug0] }

/-- A concrete location (unparseable longitude, leading-zero postal code). -/
def loc0 : Location :=
  { address := some (.s "1 Test Ave"), name := some (.s "Test Site"),
    longtitude := some (.s "N/A"), latitude := some (.s "1"),
    postalCode := some (.s "01234"), locationId := some (.s "L1"),
    status := some (.s "1"), chargingPoints := some [cp0] }

/-- A concrete one-connector payload for witnesses. -/
def payload0 : BatchPayload :=
  { LastUpdatedTime := some (.s "2025-01-01 00:00:00"),
    evLocationsData := some [loc0] }

/-- A concrete fetch timestamp for witnesses. -/
def t0 : String := "2025-01-01T00:00:00+00:00"

/-- The single post-processed row of `payload0`. -/
def row0 : FlatRow :=
  procRow (mkRow t0 payload0.LastUpdatedTime loc0 cp0 plug0 ev0)

/-- A payload with no locations array at all. -/
def payloadEmpty : BatchPayload :=
  { LastUpdatedTime := none, evLocationsData := none }

/-- The flattened frame of the concrete payload. -/
def df0 : DataFrame := flatten_evc_batch payload0 t0

/-- The CSV output path of `main`. -/
def csvPath0 : String := "data/evc_history.csv"

/-- Witness for C8 at the concrete one-row payload. -/
theorem postal_code_kept_as_text_witness :
    ∃ loc ∈ payload0.evLocationsData.getD [],
      row0.location_postalCode = Cell.strNA (loc.postalCode.map pyStr)
      ∧ (loc.postalCode = some (Scalar.s "01234") →
          row0.location_postalCode = Cell.strNA (some "01234")) :=
  postal_code_kept_as_text payload0 t0 row0 (by
    rw [flatten_rows_spec]
    show row0 ∈ [row0]
    exact List.mem_singleton.mpr rfl)

/-- Witness for C10 at a payload with no locations array. -/
theorem zero_row_batch_gives_empty_frame_witness :
    flatten_evc_batch payloadEmpty t0 = { columns := [], rows := [] }
    ∧ (pdDataFrame (buildRows payloadEmpty t0)).columns = []
    ∧ "location_postalCode" ∉ (pdDataFrame (buildRows payloadEmpty t0)).columns
    ∧ "location_longtitude" ∉ (pdDataFrame (buildRows payloadEmpty t0)).columns
    ∧ "location_latitude" ∉ (pdDataFrame (buildRows payloadEmpty t0)).columns :=
  zero_row_batch_gives_empty_frame payloadEmpty t0 rfl

/-- Witness for C5: two appends to a fresh path, with the concrete frame. -/
theorem csv_append_writes_header_once_witness :
    (append_to_csv [] csvPath0 df0).lookup csvPath0
        = some (CsvLine.header df0.columns :: dataLines df0)
    ∧ (append_to_csv (append_to_csv [] csvPath0 df0) csvPath0 df0).lookup
          csvPath0
        = some (CsvLine.header df0.columns
            :: (dataLines df0 ++ dataLines df0))
    ∧ (dataLines df0).length = df0.rows.length
    ∧ (CsvLine.header df0.columns
        :: (dataLines df0 ++ dataLines df0)).countP CsvLine.isHeader = 1
    ∧ ((CsvLine.header df0.columns
        :: (dataLines df0 ++ dataLines df0)).countP
          (fun l => !l.isHeader)) = 2 * df0.rows.length :=
  csv_append_writes_header_once [] csvPath0 df0 (Or.inl rfl)

/-- Witness for C9 at a response without a `value` field. -/
theorem absent_value_field_like_empty_value_witness :
    get_ev_batch_download_link { value := none }
        = .error (linkErrMsg { value := none })
    ∧ get_ev_batch_download_link { value := some [] }
        = .error (linkErrMsg { value := some [] }) :=
  absent_value_field_like_empty_value { value := none } rfl

/-- Witness for C4: a concrete run leaves a would-be snapshot log path
untouched. -/
theorem main_run_writes_no_snapshot_log_witness :
    ((main_model payload0 t0 ([] : FileState)).1).lookup
        "data/evc_snapshots.jsonl"
      = ([] : FileState).lookup "data/evc_snapshots.jsonl" :=
  main_run_writes_no_snapshot_log payload0 t0 [] "data/evc_snapshots.jsonl"
    (by decide)

end EvPoll
